import Mathlib

/-!
# Verification of the tank movement / turret / screen-wrap core

Shallow embedding of the movement subsystem of the `tanks_war` repository
(`src/demo/tank_movement.rs` and `src/demo/player.rs`).

The source operates on `f32` / `glam` vectors and quaternions; we model the
numeric state over `ℝ`.  Every rotation performed by this subsystem is a
rotation about the out-of-plane `+Z` axis (`Transform::rotate_z`), and the
spawn rotation is also about `+Z`, so the orientation quaternion always lies
in the `Rz(θ)` subgroup; we therefore represent the orientation by its angle
`θ : ℝ`, and `rotation * Vec3::X` becomes `(cos θ, sin θ, 0)`.
-/

namespace TanksWar

/-- A 3-component vector of reals, modelling `glam::Vec3`. -/
structure Vec3R where
  x : ℝ
  y : ℝ
  z : ℝ

/-- Bevy `Transform`, restricted to the state this subsystem touches:
translation, orientation about `+Z` (see module doc), and scale. -/
structure TransformR where
  translation : Vec3R
  rotZ : ℝ
  scale : Vec3R

/-- `TankMovementController` from `tank_movement.rs`. -/
structure TankMovementController where
  forward_intent : ℝ
  rotation_intent : ℝ
  max_speed : ℝ
  rotation_speed : ℝ

/-- `TurretController` from `player.rs`. -/
structure TurretController where
  rotation_intent : ℝ
  rotation_speed : ℝ

/-- The raw keyboard state read by the two input recorders
(`ButtonInput<KeyCode>::pressed` for the six keys the recorders sample). -/
structure InputState where
  keyW : Bool
  keyS : Bool
  keyA : Bool
  keyD : Bool
  arrowLeft : Bool
  arrowRight : Bool
deriving DecidableEq

/-- `Transform::rotate_z`: multiply the orientation by `Quat::from_rotation_z delta`;
on the `Rz` subgroup this adds `delta` to the angle. -/
def TransformR.rotate_z (t : TransformR) (delta : ℝ) : TransformR :=
  { t with rotZ := t.rotZ + delta }

/-- `glam`'s `rem_euclid` (componentwise Euclidean remainder), for a positive
modulus: `a - b * ⌊a / b⌋`, the unique representative in `[0, b)`. -/
noncomputable def remEuclid (a b : ℝ) : ℝ :=
  a - b * ⌊a / b⌋

/-- The per-component wrap formula of `apply_screen_wrap`:
`(p + S/2).rem_euclid(S) - S/2`. -/
noncomputable def wrapComponent (p S : ℝ) : ℝ :=
  remEuclid (p + S / 2) S - S / 2

/-- `apply_tank_movement` (hull motion integrator), acting on one entity that
has both a `TankMovementController` and a `Transform`.  First rotates by
`rotation_intent * rotation_speed * dt`, then, if `forward_intent ≠ 0`,
translates by `forward_intent * max_speed * dt` along the post-rotation
forward direction `rotation * Vec3::X`. -/
noncomputable def apply_tank_movement (dt : ℝ) (controller : TankMovementController)
    (transform : TransformR) : TransformR :=
  let rotation_delta := controller.rotation_intent * controller.rotation_speed * dt
  let t1 := transform.rotate_z rotation_delta
  if controller.forward_intent ≠ 0 then
    let forward_direction : Vec3R := ⟨Real.cos t1.rotZ, Real.sin t1.rotZ, 0⟩
    let movement_distance := controller.forward_intent * controller.max_speed * dt
    { t1 with translation :=
        ⟨t1.translation.x + forward_direction.x * movement_distance,
         t1.translation.y + forward_direction.y * movement_distance,
         t1.translation.z + forward_direction.z * movement_distance⟩ }
  else
    t1

/-- `apply_turret_movement` (turret motion integrator): rotation only. -/
noncomputable def apply_turret_movement (dt : ℝ) (controller : TurretController)
    (transform : TransformR) : TransformR :=
  transform.rotate_z (controller.rotation_intent * controller.rotation_speed * dt)

/-- `apply_screen_wrap` on one `ScreenWrap`-marked entity.  The viewport is
`some (w, h)` when a primary window is available, `none` otherwise; when
available, `size = window.size() + 256.0` and each of x and y is wrapped,
z is kept (`wrapped.extend(translation.z)`). -/
noncomputable def apply_screen_wrap (viewport : Option (ℝ × ℝ))
    (transform : TransformR) : TransformR :=
  match viewport with
  | none => transform
  | some (w, h) =>
      let sizeX := w + 256
      let sizeY := h + 256
      { transform with translation :=
          ⟨wrapComponent transform.translation.x sizeX,
           wrapComponent transform.translation.y sizeY,
           transform.translation.z⟩ }

/-- `record_tank_input`: overwrite both intents of a hull controller from the
currently pressed keys (W/S forward, A/D rotation). -/
def record_tank_input (input : InputState)
    (controller : TankMovementController) : TankMovementController :=
  let forward_intent : ℝ := (if input.keyW then 1 else 0) + (if input.keyS then -1 else 0)
  let rotation_intent : ℝ := (if input.keyA then 1 else 0) + (if input.keyD then -1 else 0)
  { controller with forward_intent := forward_intent, rotation_intent := rotation_intent }

/-- `record_turret_input`: overwrite the turret's rotation intent from the
arrow keys. -/
def record_turret_input (input : InputState)
    (controller : TurretController) : TurretController :=
  let rotation_intent : ℝ := (if input.arrowLeft then 1 else 0) + (if input.arrowRight then -1 else 0)
  { controller with rotation_intent := rotation_intent }

/-- The five systems this subsystem registers.  The player plugin chains
`record_tank_input → record_turret_input → apply_turret_movement` in the
`AppSystems::RecordInput` set; the tank-movement plugin chains
`apply_tank_movement → apply_screen_wrap` in the `AppSystems::Update` set. -/
inductive SystemName where
  | recordTankInput
  | recordTurretInput
  | applyTurretMovement
  | applyTankMovement
  | applyScreenWrap
deriving DecidableEq

/-- Modelled from the spec: the definition of the `AppSystems` set ordering
(`RecordInput` before `Update`) lives outside the two provided source files;
section 2 of the spec fixes the stage order as input recording before motion
integration before boundary wrapping, so the `RecordInput` set runs before the
`Update` set.  Within each set the order is the `.chain()` order written in
`player.rs` and `tank_movement.rs`. -/
def tickSchedule : List SystemName :=
  [.recordTankInput, .recordTurretInput, .applyTurretMovement,
   .applyTankMovement, .applyScreenWrap]

/-- The world state this subsystem touches: the hull entity's controller and
transform, and the turret entity's controller and transform.  The hull entity
carries the `ScreenWrap` marker; the turret entity does not. -/
structure World where
  hull : TankMovementController
  hullTransform : TransformR
  turret : TurretController
  turretTransform : TransformR

/-- One simulation tick: the five systems of `tickSchedule` run in order on
the world.  `input` is the keyboard state, `dt` the frame time, `viewport`
the primary-window size when one exists. -/
noncomputable def tick (input : InputState) (dt : ℝ) (viewport : Option (ℝ × ℝ))
    (w : World) : World :=
  let w1 := { w with hull := record_tank_input input w.hull }
  let w2 := { w1 with turret := record_turret_input input w1.turret }
  let w3 := { w2 with turretTransform := apply_turret_movement dt w2.turret w2.turretTransform }
  let w4 := { w3 with hullTransform := apply_tank_movement dt w3.hull w3.hullTransform }
  { w4 with hullTransform := apply_screen_wrap viewport w4.hullTransform }

/-- Run a sequence of ticks, one `InputState` per tick, fixed `dt` and
viewport. -/
noncomputable def runTicks (dt : ℝ) (viewport : Option (ℝ × ℝ))
    (inputs : List InputState) (w : World) : World :=
  inputs.foldl (fun acc i => tick i dt viewport acc) w

/-- Hull and turret integrators of one tick, in schedule order (turret first),
with the recorders and the wrapper left out; used for properties about "the
integrators" alone. -/
noncomputable def integrate (dt : ℝ) (w : World) : World :=
  let w1 := { w with turretTransform := apply_turret_movement dt w.turret w.turretTransform }
  { w1 with hullTransform := apply_tank_movement dt w1.hull w1.hullTransform }

/-- Two keyboard states agree on the keys the hull recorder samples. -/
def hullKeysEq (a b : InputState) : Prop :=
  a.keyW = b.keyW ∧ a.keyS = b.keyS ∧ a.keyA = b.keyA ∧ a.keyD = b.keyD

/-- Two keyboard states agree on the keys the turret recorder samples. -/
def turretKeysEq (a b : InputState) : Prop :=
  a.arrowLeft = b.arrowLeft ∧ a.arrowRight = b.arrowRight

/-- A concrete world used to instantiate universally quantified theorems. -/
def sampleWorld : World :=
  { hull := ⟨0, 0, 400, 3⟩
    hullTransform := ⟨⟨0, 0, 0⟩, 0, ⟨1, 1, 1⟩⟩
    turret := ⟨0, 3⟩
    turretTransform := ⟨⟨0, 0, 0⟩, 0, ⟨1, 1, 1⟩⟩ }

/-! ## Helper lemmas -/

lemma remEuclid_eq_fract (a b : ℝ) (hb : b ≠ 0) :
    remEuclid a b = b * Int.fract (a / b) := by
  rw [remEuclid, Int.fract, mul_sub, mul_div_cancel₀ a hb]

lemma remEuclid_nonneg (a b : ℝ) (hb : 0 < b) : 0 ≤ remEuclid a b := by
  rw [remEuclid_eq_fract a b hb.ne']
  exact mul_nonneg hb.le (Int.fract_nonneg _)

lemma remEuclid_lt (a b : ℝ) (hb : 0 < b) : remEuclid a b < b := by
  rw [remEuclid_eq_fract a b hb.ne']
  calc b * Int.fract (a / b) < b * 1 :=
        mul_lt_mul_of_pos_left (Int.fract_lt_one _) hb
    _ = b := mul_one b

lemma wrapComponent_415_800 : wrapComponent 415 800 = -385 := by
  have hfloor : ⌊(815 : ℝ) / 800⌋ = 1 := by norm_num [Int.floor_eq_iff]
  have : (415 : ℝ) + 800 / 2 = 815 := by norm_num
  rw [wrapComponent, this, remEuclid, hfloor]
  norm_num

/-- The rotation applied by the hull integrator, independent of the
forward-translation branch. -/
lemma apply_tank_movement_rotZ (dt : ℝ) (c : TankMovementController)
    (t : TransformR) :
    (apply_tank_movement dt c t).rotZ =
      t.rotZ + c.rotation_intent * c.rotation_speed * dt := by
  rw [apply_tank_movement]
  split <;> rfl

/-- The translation applied by the hull integrator when `forward_intent ≠ 0`,
componentwise, in terms of the post-rotation angle. -/
lemma apply_tank_movement_translation (dt : ℝ) (c : TankMovementController)
    (t : TransformR) (hf : c.forward_intent ≠ 0) :
    (apply_tank_movement dt c t).translation.x =
      t.translation.x + Real.cos (t.rotZ + c.rotation_intent * c.rotation_speed * dt) *
        (c.forward_intent * c.max_speed * dt) ∧
    (apply_tank_movement dt c t).translation.y =
      t.translation.y + Real.sin (t.rotZ + c.rotation_intent * c.rotation_speed * dt) *
        (c.forward_intent * c.max_speed * dt) ∧
    (apply_tank_movement dt c t).translation.z = t.translation.z := by
  rw [apply_tank_movement, if_pos hf]
  refine ⟨rfl, rfl, ?_⟩
  show t.translation.z + 0 * (c.forward_intent * c.max_speed * dt) = t.translation.z
  ring

/-- With `forward_intent = 0` the hull integrator does not translate. -/
lemma apply_tank_movement_no_translation (dt : ℝ) (c : TankMovementController)
    (t : TransformR) (hf : c.forward_intent = 0) :
    (apply_tank_movement dt c t).translation = t.translation := by
  rw [apply_tank_movement, if_neg (by simp [hf])]
  rfl

/-- With both hull intents zero the hull integrator is the identity. -/
lemma apply_tank_movement_zero (dt : ℝ) (c : TankMovementController)
    (t : TransformR) (h1 : c.forward_intent = 0) (h2 : c.rotation_intent = 0) :
    apply_tank_movement dt c t = t := by
  rw [apply_tank_movement, if_neg (by simp [h1])]
  simp [TransformR.rotate_z, h2]

/-- With a zero rotation intent the turret integrator is the identity. -/
lemma apply_turret_movement_zero (dt : ℝ) (c : TurretController)
    (t : TransformR) (h : c.rotation_intent = 0) :
    apply_turret_movement dt c t = t := by
  simp [apply_turret_movement, TransformR.rotate_z, h]

/-- The hull half of a tick depends only on the hull half of the world. -/
lemma tick_hull_state (i : InputState) (dt : ℝ) (vp : Option (ℝ × ℝ)) (w : World) :
    (tick i dt vp w).hull = record_tank_input i w.hull ∧
    (tick i dt vp w).hullTransform =
      apply_screen_wrap vp
        (apply_tank_movement dt (record_tank_input i w.hull) w.hullTransform) :=
  ⟨rfl, rfl⟩

/-- The turret half of a tick depends only on the turret half of the world. -/
lemma tick_turret_state (i : InputState) (dt : ℝ) (vp : Option (ℝ × ℝ)) (w : World) :
    (tick i dt vp w).turret = record_turret_input i w.turret ∧
    (tick i dt vp w).turretTransform =
      apply_turret_movement dt (record_turret_input i w.turret) w.turretTransform :=
  ⟨rfl, rfl⟩

/-- The hull recorder reads only the four hull keys. -/
lemma record_tank_input_keys (i j : InputState) (c : TankMovementController)
    (h : hullKeysEq i j) : record_tank_input i c = record_tank_input j c := by
  obtain ⟨hW, hS, hA, hD⟩ := h
  simp [record_tank_input, hW, hS, hA, hD]

/-- The turret recorder reads only the two arrow keys. -/
lemma record_turret_input_keys (i j : InputState) (c : TurretController)
    (h : turretKeysEq i j) : record_turret_input i c = record_turret_input j c := by
  obtain ⟨hL, hR⟩ := h
  simp [record_turret_input, hL, hR]

lemma runTicks_cons (dt : ℝ) (vp : Option (ℝ × ℝ)) (i : InputState)
    (l : List InputState) (w : World) :
    runTicks dt vp (i :: l) w = runTicks dt vp l (tick i dt vp w) := rfl

/-- Noninterference, hull side: runs agreeing on the hull keys from worlds
agreeing on the hull state keep agreeing on the hull state. -/
lemma runTicks_hull_eq (dt : ℝ) (vp : Option (ℝ × ℝ))
    {is1 is2 : List InputState} (h : List.Forall₂ hullKeysEq is1 is2) :
    ∀ w1 w2 : World, w1.hull = w2.hull → w1.hullTransform = w2.hullTransform →
      (runTicks dt vp is1 w1).hull = (runTicks dt vp is2 w2).hull ∧
      (runTicks dt vp is1 w1).hullTransform = (runTicks dt vp is2 w2).hullTransform := by
  induction h with
  | nil => exact fun w1 w2 hc ht => ⟨hc, ht⟩
  | cons hab htl ih =>
      intro w1 w2 hc ht
      rw [runTicks_cons, runTicks_cons]
      rename_i a b l1 l2
      apply ih
      · rw [(tick_hull_state a dt vp w1).1, (tick_hull_state b dt vp w2).1, hc,
          record_tank_input_keys a b _ hab]
      · rw [(tick_hull_state a dt vp w1).2, (tick_hull_state b dt vp w2).2, hc, ht,
          record_tank_input_keys a b _ hab]

/-- Noninterference, turret side. -/
lemma runTicks_turret_eq (dt : ℝ) (vp : Option (ℝ × ℝ))
    {is1 is2 : List InputState} (h : List.Forall₂ turretKeysEq is1 is2) :
    ∀ w1 w2 : World, w1.turret = w2.turret → w1.turretTransform = w2.turretTransform →
      (runTicks dt vp is1 w1).turret = (runTicks dt vp is2 w2).turret ∧
      (runTicks dt vp is1 w1).turretTransform = (runTicks dt vp is2 w2).turretTransform := by
  induction h with
  | nil => exact fun w1 w2 hc ht => ⟨hc, ht⟩
  | cons hab htl ih =>
      intro w1 w2 hc ht
      rw [runTicks_cons, runTicks_cons]
      rename_i a b l1 l2
      apply ih
      · rw [(tick_turret_state a dt vp w1).1, (tick_turret_state b dt vp w2).1, hc,
          record_turret_input_keys a b _ hab]
      · rw [(tick_turret_state a dt vp w1).2, (tick_turret_state b dt vp w2).2, hc, ht,
          record_turret_input_keys a b _ hab]

/-! ## Claim theorems -/

/-- C1: for every `ScreenWrap`-marked entity with a primary viewport present,
`apply_screen_wrap` replaces each of x and y by
`((position + half) mod S) - half` with `S = viewport_size + 256` and
`half = S/2`, using the Euclidean (non-negative remainder) modulo; for every
position `p` and domain `S > 0` the wrapped component lies in `[-S/2, S/2)`,
and with `S = 800` position `x = 415` wraps to `-385`. -/
theorem screen_wrap_formula_range (p S vw vh : ℝ) (t : TransformR) (hS : 0 < S) :
    ((apply_screen_wrap (some (vw, vh)) t).translation.x =
        wrapComponent t.translation.x (vw + 256) ∧
      (apply_screen_wrap (some (vw, vh)) t).translation.y =
        wrapComponent t.translation.y (vh + 256)) ∧
    (-(S / 2) ≤ wrapComponent p S ∧ wrapComponent p S < S / 2) ∧
    wrapComponent 415 800 = -385 := by
  refine ⟨⟨rfl, rfl⟩, ⟨?_, ?_⟩, wrapComponent_415_800⟩
  · have := remEuclid_nonneg (p + S / 2) S hS
    rw [wrapComponent]; linarith
  · have := remEuclid_lt (p + S / 2) S hS
    rw [wrapComponent]; linarith

/-- Witness for C1 at `p = 415`, `S = 800`, viewport `544 × 544`. -/
theorem screen_wrap_formula_range_witness :
    (-(800 / 2 : ℝ) ≤ wrapComponent 415 800 ∧ wrapComponent 415 800 < 800 / 2) ∧
    wrapComponent 415 800 = -385 :=
  (screen_wrap_formula_range 415 800 544 544
    ⟨⟨415, 0, 0⟩, 0, ⟨1, 1, 1⟩⟩ (by norm_num)).2

/-- C5: with no primary viewport available, the boundary wrapper is a silent
no-op: the transform is identical before and after, and no error is raised
(the function is total). -/
theorem screen_wrap_noop_without_viewport (t : TransformR) :
    apply_screen_wrap none t = t := rfl

/-- C2: the hull integrator first increments the orientation by
`rotation_intent * rotation_speed * dt`, then, when `forward_intent ≠ 0`,
translates by `forward_intent * max_speed * dt` along the direction obtained
by applying the post-rotation (same-tick) orientation to the local `+X` axis:
the translation direction uses this tick's rotation, not the previous heading. -/
theorem tank_movement_rotate_then_translate (dt : ℝ) (c : TankMovementController)
    (t : TransformR) :
    (apply_tank_movement dt c t).rotZ =
      t.rotZ + c.rotation_intent * c.rotation_speed * dt ∧
    (c.forward_intent ≠ 0 →
      (apply_tank_movement dt c t).translation.x =
        t.translation.x + Real.cos (t.rotZ + c.rotation_intent * c.rotation_speed * dt) *
          (c.forward_intent * c.max_speed * dt) ∧
      (apply_tank_movement dt c t).translation.y =
        t.translation.y + Real.sin (t.rotZ + c.rotation_intent * c.rotation_speed * dt) *
          (c.forward_intent * c.max_speed * dt) ∧
      (apply_tank_movement dt c t).translation.z = t.translation.z) :=
  ⟨apply_tank_movement_rotZ dt c t, apply_tank_movement_translation dt c t⟩

/-- Witness for C2: the quarter-turn scenario.  `rotation_speed = π/2` rad/s,
`dt = 1`, both intents `1`, `max_speed = 1`, starting at the origin with
heading `0`: the tick rotates to `π/2` and translates along `(0, 1)` — the
post-rotation heading — landing at `(0, 1)`, not at `(1, 0)`. -/
theorem tank_movement_rotate_then_translate_witness :
    (apply_tank_movement 1 ⟨1, 1, 1, Real.pi / 2⟩ ⟨⟨0, 0, 0⟩, 0, ⟨1, 1, 1⟩⟩).rotZ =
      Real.pi / 2 ∧
    (apply_tank_movement 1 ⟨1, 1, 1, Real.pi / 2⟩ ⟨⟨0, 0, 0⟩, 0, ⟨1, 1, 1⟩⟩).translation.x = 0 ∧
    (apply_tank_movement 1 ⟨1, 1, 1, Real.pi / 2⟩ ⟨⟨0, 0, 0⟩, 0, ⟨1, 1, 1⟩⟩).translation.y = 1 := by
  obtain ⟨h1, h2⟩ :=
    tank_movement_rotate_then_translate 1 ⟨1, 1, 1, Real.pi / 2⟩ ⟨⟨0, 0, 0⟩, 0, ⟨1, 1, 1⟩⟩
  obtain ⟨hx, hy, -⟩ := h2 one_ne_zero
  refine ⟨by rw [h1]; ring, ?_, ?_⟩
  · rw [hx]; norm_num
  · rw [hy]; norm_num

/-- C3 counterexample: in the registered schedule the turret integrator does
NOT run after the hull integrator — `apply_turret_movement` is chained in the
input-recording set, so it precedes `apply_tank_movement`. -/
theorem turret_after_hull_counterexample :
    ¬ (tickSchedule.indexOf SystemName.applyTankMovement <
        tickSchedule.indexOf SystemName.applyTurretMovement) := by decide

/-- C3 (amended): within a tick the turret integrator executes after both
input recorders have committed their intents, but before the hull integrator. -/
theorem turret_integrator_schedule_position :
    tickSchedule.indexOf SystemName.recordTankInput <
      tickSchedule.indexOf SystemName.applyTurretMovement ∧
    tickSchedule.indexOf SystemName.recordTurretInput <
      tickSchedule.indexOf SystemName.applyTurretMovement ∧
    tickSchedule.indexOf SystemName.applyTurretMovement <
      tickSchedule.indexOf SystemName.applyTankMovement := by decide

/-- C4: each tick the hull recorder unconditionally overwrites both intents:
`forward_intent = (+1 if W) + (-1 if S)` and
`rotation_intent = (+1 if A) + (-1 if D)`; each intent is in `{-1, 0, 1}`,
opposite keys cancel exactly to zero, no keys held gives explicit zeros, and
the result never depends on the controller's previous intent values. -/
theorem record_tank_input_contract (input : InputState)
    (c c₂ : TankMovementController) :
    (record_tank_input input c).forward_intent =
      (if input.keyW then (1 : ℝ) else 0) + (if input.keyS then (-1 : ℝ) else 0) ∧
    (record_tank_input input c).rotation_intent =
      (if input.keyA then (1 : ℝ) else 0) + (if input.keyD then (-1 : ℝ) else 0) ∧
    ((record_tank_input input c).forward_intent = -1 ∨
      (record_tank_input input c).forward_intent = 0 ∨
      (record_tank_input input c).forward_intent = 1) ∧
    ((record_tank_input input c).rotation_intent = -1 ∨
      (record_tank_input input c).rotation_intent = 0 ∨
      (record_tank_input input c).rotation_intent = 1) ∧
    (input.keyW = true → input.keyS = true →
      (record_tank_input input c).forward_intent = 0) ∧
    (input.keyA = true → input.keyD = true →
      (record_tank_input input c).rotation_intent = 0) ∧
    (input.keyW = false → input.keyS = false → input.keyA = false → input.keyD = false →
      (record_tank_input input c).forward_intent = 0 ∧
      (record_tank_input input c).rotation_intent = 0) ∧
    (record_tank_input input c).forward_intent =
      (record_tank_input input c₂).forward_intent ∧
    (record_tank_input input c).rotation_intent =
      (record_tank_input input c₂).rotation_intent := by
  obtain ⟨kW, kS, kA, kD, aL, aR⟩ := input
  cases kW <;> cases kS <;> cases kA <;> cases kD <;>
    simp [record_tank_input]

/-- Witness for C4: all four hull keys held, starting from stale intents
`(5, 7)`: both intents are overwritten to exact zero. -/
theorem record_tank_input_contract_witness :
    (record_tank_input ⟨true, true, true, true, false, false⟩
      ⟨5, 7, 400, 3⟩).forward_intent = 0 ∧
    (record_tank_input ⟨true, true, true, true, false, false⟩
      ⟨5, 7, 400, 3⟩).rotation_intent = 0 := by
  obtain ⟨-, -, -, -, hf, hr, -, -, -⟩ :=
    record_tank_input_contract ⟨true, true, true, true, false, false⟩
      ⟨5, 7, 400, 3⟩ ⟨0, 0, 400, 3⟩
  exact ⟨hf rfl rfl, hr rfl rfl⟩

/-- C6: with all intents zero — hull forward and rotation, turret rotation —
running the integrators for any number of ticks leaves both entities'
transforms (position and orientation) unchanged. -/
theorem zero_intents_idempotent (w : World) (n : ℕ) (dt : ℝ)
    (h1 : w.hull.forward_intent = 0) (h2 : w.hull.rotation_intent = 0)
    (h3 : w.turret.rotation_intent = 0) :
    ((integrate dt)^[n] w).hullTransform = w.hullTransform ∧
    ((integrate dt)^[n] w).turretTransform = w.turretTransform := by
  have hfix : integrate dt w = w := by
    obtain ⟨hull, hullT, turret, turretT⟩ := w
    rw [integrate]
    rw [apply_turret_movement_zero dt turret turretT h3]
    rw [apply_tank_movement_zero dt hull hullT h1 h2]
  rw [Function.iterate_fixed hfix n]
  exact ⟨rfl, rfl⟩

/-- Witness for C6: the sample world (all intents zero), three ticks. -/
theorem zero_intents_idempotent_witness :
    ((integrate 1)^[3] sampleWorld).hullTransform = sampleWorld.hullTransform ∧
    ((integrate 1)^[3] sampleWorld).turretTransform = sampleWorld.turretTransform :=
  zero_intents_idempotent sampleWorld 3 1 rfl rfl rfl

/-- C7: noninterference between the hull and turret control domains — two
runs (same start, same `dt`, same viewport) whose per-tick inputs agree on the
hull keys produce identical hull transforms, whatever the turret keys do; and
two runs whose inputs agree on the turret keys produce identical turret
transforms, whatever the hull keys do. -/
theorem hull_turret_independence (dt : ℝ) (vp : Option (ℝ × ℝ))
    (is1 is2 : List InputState) (w : World) :
    (List.Forall₂ hullKeysEq is1 is2 →
      (runTicks dt vp is1 w).hullTransform = (runTicks dt vp is2 w).hullTransform) ∧
    (List.Forall₂ turretKeysEq is1 is2 →
      (runTicks dt vp is1 w).turretTransform = (runTicks dt vp is2 w).turretTransform) :=
  ⟨fun h => (runTicks_hull_eq dt vp h w w rfl rfl).2,
   fun h => (runTicks_turret_eq dt vp h w w rfl rfl).2⟩

/-- Witness for C7: one tick from the sample world.  Flipping the arrow keys
leaves the hull transform unchanged; flipping all four hull keys leaves the
turret transform unchanged. -/
theorem hull_turret_independence_witness :
    (runTicks 1 none [⟨true, false, false, false, true, false⟩]
        sampleWorld).hullTransform =
      (runTicks 1 none [⟨true, false, false, false, false, true⟩]
        sampleWorld).hullTransform ∧
    (runTicks 1 none [⟨true, false, false, false, true, false⟩]
        sampleWorld).turretTransform =
      (runTicks 1 none [⟨false, true, true, true, true, false⟩]
        sampleWorld).turretTransform := by
  constructor
  · exact (hull_turret_independence 1 none
      [⟨true, false, false, false, true, false⟩]
      [⟨true, false, false, false, false, true⟩] sampleWorld).1
      (List.Forall₂.cons ⟨rfl, rfl, rfl, rfl⟩ List.Forall₂.nil)
  · exact (hull_turret_independence 1 none
      [⟨true, false, false, false, true, false⟩]
      [⟨false, true, true, true, true, false⟩] sampleWorld).2
      (List.Forall₂.cons ⟨rfl, rfl⟩ List.Forall₂.nil)

/-- C8: the recorders only ever write intents in `[-1, 1]`, and when the
intents are in `[-1, 1]` (with nonnegative caps and `dt`) one tick's rotation
increment is at most `rotation_speed * dt` in magnitude (hull and turret) and
the hull's translation distance is at most `max_speed * dt`. -/
theorem intents_bounded_motion_capped (input : InputState)
    (c : TankMovementController) (tc : TurretController) (t u : TransformR)
    (dt : ℝ) (hdt : 0 ≤ dt) (hrs : 0 ≤ c.rotation_speed) (hms : 0 ≤ c.max_speed)
    (htrs : 0 ≤ tc.rotation_speed)
    (hfi : |c.forward_intent| ≤ 1) (hri : |c.rotation_intent| ≤ 1)
    (htri : |tc.rotation_intent| ≤ 1) :
    (|(record_tank_input input c).forward_intent| ≤ 1 ∧
      |(record_tank_input input c).rotation_intent| ≤ 1 ∧
      |(record_turret_input input tc).rotation_intent| ≤ 1) ∧
    |(apply_tank_movement dt c t).rotZ - t.rotZ| ≤ c.rotation_speed * dt ∧
    Real.sqrt (((apply_tank_movement dt c t).translation.x - t.translation.x) ^ 2 +
        ((apply_tank_movement dt c t).translation.y - t.translation.y) ^ 2) ≤
      c.max_speed * dt ∧
    |(apply_turret_movement dt tc u).rotZ - u.rotZ| ≤ tc.rotation_speed * dt := by
  refine ⟨⟨?_, ?_, ?_⟩, ?_, ?_, ?_⟩
  · obtain ⟨kW, kS, kA, kD, aL, aR⟩ := input
    cases kW <;> cases kS <;> simp [record_tank_input]
  · obtain ⟨kW, kS, kA, kD, aL, aR⟩ := input
    cases kA <;> cases kD <;> simp [record_tank_input]
  · obtain ⟨kW, kS, kA, kD, aL, aR⟩ := input
    cases aL <;> cases aR <;> simp [record_turret_input]
  · rw [apply_tank_movement_rotZ]
    have h1 : t.rotZ + c.rotation_intent * c.rotation_speed * dt - t.rotZ =
        c.rotation_intent * (c.rotation_speed * dt) := by ring
    rw [h1, abs_mul, abs_of_nonneg (mul_nonneg hrs hdt)]
    exact mul_le_of_le_one_left (mul_nonneg hrs hdt) hri
  · by_cases hf : c.forward_intent = 0
    · rw [apply_tank_movement_no_translation dt c t hf]
      simp only [sub_self]
      rw [show (0 : ℝ) ^ 2 + 0 ^ 2 = 0 by ring, Real.sqrt_zero]
      exact mul_nonneg hms hdt
    · obtain ⟨hx, hy, -⟩ := apply_tank_movement_translation dt c t hf
      rw [hx, hy]
      have hangle := Real.sin_sq_add_cos_sq
        (t.rotZ + c.rotation_intent * c.rotation_speed * dt)
      have hsq : (t.translation.x + Real.cos (t.rotZ + c.rotation_intent * c.rotation_speed * dt) *
            (c.forward_intent * c.max_speed * dt) - t.translation.x) ^ 2 +
          (t.translation.y + Real.sin (t.rotZ + c.rotation_intent * c.rotation_speed * dt) *
            (c.forward_intent * c.max_speed * dt) - t.translation.y) ^ 2 =
          (c.forward_intent * c.max_speed * dt) ^ 2 := by
        linear_combination (c.forward_intent * c.max_speed * dt) ^ 2 * hangle
      rw [hsq, Real.sqrt_sq_eq_abs]
      have h2 : c.forward_intent * c.max_speed * dt =
          c.forward_intent * (c.max_speed * dt) := by ring
      rw [h2, abs_mul, abs_of_nonneg (mul_nonneg hms hdt)]
      exact mul_le_of_le_one_left (mul_nonneg hms hdt) hfi
  · rw [apply_turret_movement, TransformR.rotate_z]
    have h1 : u.rotZ + tc.rotation_intent * tc.rotation_speed * dt - u.rotZ =
        tc.rotation_intent * (tc.rotation_speed * dt) := by ring
    show |u.rotZ + tc.rotation_intent * tc.rotation_speed * dt - u.rotZ| ≤ _
    rw [h1, abs_mul, abs_of_nonneg (mul_nonneg htrs hdt)]
    exact mul_le_of_le_one_left (mul_nonneg htrs hdt) htri

/-- Witness for C8: W held, hull controller with intents `(1, -1)`, caps
`max_speed = 2`, `rotation_speed = 3`, `dt = 1`. -/
theorem intents_bounded_motion_capped_witness :
    |(record_tank_input ⟨true, false, false, false, false, false⟩
        ⟨1, -1, 2, 3⟩).forward_intent| ≤ 1 ∧
    |(apply_tank_movement 1 ⟨1, -1, 2, 3⟩
        ⟨⟨0, 0, 0⟩, 0, ⟨1, 1, 1⟩⟩).rotZ - (0 : ℝ)| ≤ 3 * 1 ∧
    Real.sqrt (((apply_tank_movement 1 ⟨1, -1, 2, 3⟩
          ⟨⟨0, 0, 0⟩, 0, ⟨1, 1, 1⟩⟩).translation.x - 0) ^ 2 +
        ((apply_tank_movement 1 ⟨1, -1, 2, 3⟩
          ⟨⟨0, 0, 0⟩, 0, ⟨1, 1, 1⟩⟩).translation.y - 0) ^ 2) ≤ 2 * 1 := by
  obtain ⟨⟨ha, -, -⟩, hb, hc, -⟩ :=
    intents_bounded_motion_capped ⟨true, false, false, false, false, false⟩
      ⟨1, -1, 2, 3⟩ ⟨1, 3⟩ ⟨⟨0, 0, 0⟩, 0, ⟨1, 1, 1⟩⟩ ⟨⟨0, 0, 0⟩, 0, ⟨1, 1, 1⟩⟩ 1
      (by norm_num) (by norm_num) (by norm_num) (by norm_num)
      (by norm_num) (by norm_num) (by norm_num)
  exact ⟨ha, hb, hc⟩

/-- C9: the per-tick orientation increment `rotation_intent * rotation_speed
* dt` is linear in `dt` for both integrators: doubling `dt` with fixed intent
doubles the increment. -/
theorem rotation_linear_in_dt (dt : ℝ) (_hdt : 0 ≤ dt)
    (c : TankMovementController) (tc : TurretController) (t u : TransformR) :
    (apply_tank_movement (2 * dt) c t).rotZ - t.rotZ =
      2 * ((apply_tank_movement dt c t).rotZ - t.rotZ) ∧
    (apply_turret_movement (2 * dt) tc u).rotZ - u.rotZ =
      2 * ((apply_turret_movement dt tc u).rotZ - u.rotZ) := by
  constructor
  · rw [apply_tank_movement_rotZ, apply_tank_movement_rotZ]; ring
  · rw [apply_turret_movement, apply_turret_movement, TransformR.rotate_z,
      TransformR.rotate_z]
    show u.rotZ + tc.rotation_intent * tc.rotation_speed * (2 * dt) - u.rotZ =
      2 * (u.rotZ + tc.rotation_intent * tc.rotation_speed * dt - u.rotZ)
    ring

/-- Witness for C9 at `dt = 1` on the quarter-turn controller. -/
theorem rotation_linear_in_dt_witness :
    (apply_tank_movement (2 * 1) (⟨1, 1, 1, 3⟩ : TankMovementController)
        ⟨⟨0, 0, 0⟩, 0, ⟨1, 1, 1⟩⟩).rotZ - (0 : ℝ) =
      2 * ((apply_tank_movement 1 (⟨1, 1, 1, 3⟩ : TankMovementController)
        ⟨⟨0, 0, 0⟩, 0, ⟨1, 1, 1⟩⟩).rotZ - 0) ∧
    (apply_turret_movement (2 * 1) (⟨1, 3⟩ : TurretController)
        ⟨⟨0, 0, 0⟩, 0, ⟨1, 1, 1⟩⟩).rotZ - (0 : ℝ) =
      2 * ((apply_turret_movement 1 (⟨1, 3⟩ : TurretController)
        ⟨⟨0, 0, 0⟩, 0, ⟨1, 1, 1⟩⟩).rotZ - 0) :=
  rotation_linear_in_dt 1 (by norm_num) ⟨1, 1, 1, 3⟩ ⟨1, 3⟩
    ⟨⟨0, 0, 0⟩, 0, ⟨1, 1, 1⟩⟩ ⟨⟨0, 0, 0⟩, 0, ⟨1, 1, 1⟩⟩

/-- C10: the boundary wrapper modifies only x and y: orientation, scale, and
the z component of the translation are unchanged for every viewport state. -/
theorem screen_wrap_only_xy (viewport : Option (ℝ × ℝ)) (t : TransformR) :
    (apply_screen_wrap viewport t).rotZ = t.rotZ ∧
    (apply_screen_wrap viewport t).scale = t.scale ∧
    (apply_screen_wrap viewport t).translation.z = t.translation.z := by
  match viewport with
  | none => exact ⟨rfl, rfl, rfl⟩
  | some (w, h) => exact ⟨rfl, rfl, rfl⟩

end TanksWar
